import Mathlib

/-!
Verification of the chart-configuration core of `grapher_admin/models.py`:
`Chart.make_cache_tag`, `Chart.get_config_with_url`, `Chart.find_with_redirects`.

Shallow embedding conventions:
* The relational store is passed explicitly as Lean lists in table (row) order;
  Django's unordered querysets return rows in that order.
* Datetimes are opaque: a field `updated_at` is modelled as the string that
  `str(...)` produces for it (`None` prints as "None").
* `json.loads` is modelled by an executable JSON parser over integer numerics;
  non-integral numeric literals and `\u` escapes are outside this model.
* Python exceptions are modelled with `Except PyErr`; an uncaught exception is
  an `Except.error` result.
* `hashlib.md5` is implemented concretely (RFC 1321) over UTF-8 bytes.
-/

namespace Grapher

/-- Python exception model: the exception kinds these code paths can raise. -/
inductive PyErr where
  | keyError (k : String)
  | typeError
  | valueError
  | jsonDecodeError
  | doesNotExist
  | multipleObjectsReturned
  deriving DecidableEq, Repr

/-- JSON values as produced by `json.loads` (numerics restricted to integers). -/
inductive JValue where
  | null
  | bool (b : Bool)
  | num (n : Int)
  | str (s : String)
  | arr (xs : List JValue)
  | obj (kvs : List (String × JValue))
  deriving Repr

/-- First-match lookup in a JSON object's key/value list (the list never holds
duplicate keys because insertion overwrites, see `dictSet`). -/
def lookupKV : List (String × JValue) → String → Option JValue
  | [], _ => none
  | (k, v) :: rest, key => if k == key then some v else lookupKV rest key

/-- Python `dict` assignment: overwrite in place if the key exists (keeping its
position, as Python dicts do), otherwise append. -/
def dictSet : List (String × JValue) → String → JValue → List (String × JValue)
  | [], key, val => [(key, val)]
  | (k, v) :: rest, key, val =>
    if k == key then (k, val) :: rest else (k, v) :: dictSet rest key val

/-- Python `d[key]` for a string key: dict lookup (KeyError on a missing key);
any non-dict raises TypeError under a string subscript. -/
def pyGetItem : JValue → String → Except PyErr JValue
  | .obj kvs, key =>
    match lookupKV kvs key with
    | some v => .ok v
    | none => .error (.keyError key)
  | _, _ => .error .typeError

/-- Python `d[key] = v` for a string key: only dicts support item assignment. -/
def pySetItem : JValue → String → JValue → Except PyErr JValue
  | .obj kvs, key, val => .ok (.obj (dictSet kvs key val))
  | _, _, _ => .error .typeError

/-- Does the JSON list contain the given name as a string element?  Models both
`x in list` for a string `x` and the SQL `IN` comparison of a text column
against the decoded JSON elements (only string elements can match a name). -/
def jStrMatches (elems : List JValue) (n : String) : Bool :=
  elems.any (fun v => match v with | .str s => s == n | _ => false)

/-- Python iteration `for x in v`: lists yield elements, strings yield their
characters (as 1-char strings), dicts yield their keys; other values raise
TypeError. -/
def pyIter : JValue → Except PyErr (List JValue)
  | .arr xs => .ok xs
  | .str s => .ok (s.data.map (fun c => JValue.str (String.mk [c])))
  | .obj kvs => .ok (kvs.map (fun kv => JValue.str kv.1))
  | _ => .error .typeError

/-- Does the first character list start with the second as a leading run? -/
def charsStartWith : List Char → List Char → Bool
  | _, [] => true
  | [], _ :: _ => false
  | b :: bs, a :: as => a == b && charsStartWith bs as

/-- Substring test on character lists (Python `needle in haystack` on str). -/
def charsContain (hay needle : List Char) : Bool :=
  match hay with
  | [] => needle.isEmpty
  | _ :: bs => charsStartWith hay needle || charsContain bs needle

/-- Python `key in d` for a string key: dict key test, list membership test,
substring test on strings; other values raise TypeError. -/
def pyContains (key : String) : JValue → Except PyErr Bool
  | .obj kvs => .ok (lookupKV kvs key).isSome
  | .arr xs => .ok (jStrMatches xs key)
  | .str s => .ok (charsContain s.data key.data)
  | _ => .error .typeError

def isPyDigit (c : Char) : Bool := '0' ≤ c && c ≤ '9'

def isPySpace (c : Char) : Bool :=
  c == ' ' || c == '\t' || c == '\n' || c == '\r' || c == '\x0b' || c == '\x0c'

def digitsToNat (ds : List Char) : Nat :=
  ds.foldl (fun acc c => acc * 10 + (c.toNat - 48)) 0

/-- Digit run with optional single underscores between digits, as accepted by
Python's `int(str)`.  Returns the collected digits, or none on a malformed
underscore placement.  Consumes the whole input. -/
def pyDigitGroups : List Char → Option (List Char)
  | [] => some []
  | c :: cs =>
    if isPyDigit c then
      match pyDigitGroups cs with
      | some ds => some (c :: ds)
      | none => none
    else if c == '_' then
      match cs with
      | d :: cs2 =>
        if isPyDigit d then
          match pyDigitGroups cs2 with
          | some ds => some (d :: ds)
          | none => none
        else none
      | [] => none
    else none

/-- Python `int(s)` on a string: optional surrounding whitespace, optional
sign, then digits (underscore separators allowed between digits).  Returns
`none` where Python raises ValueError. -/
def pyIntParse (s : String) : Option Int :=
  let cs := (s.data.dropWhile isPySpace).reverse.dropWhile isPySpace |>.reverse
  match cs with
  | '-' :: rest =>
    match rest with
    | d :: _ =>
      if isPyDigit d then (pyDigitGroups rest).map (fun ds => -(digitsToNat ds : Int))
      else none
    | [] => none
  | '+' :: rest =>
    match rest with
    | d :: _ =>
      if isPyDigit d then (pyDigitGroups rest).map (fun ds => (digitsToNat ds : Int))
      else none
    | [] => none
  | d :: _ =>
    if isPyDigit d then (pyDigitGroups cs).map (fun ds => (digitsToNat ds : Int))
    else none
  | [] => none

/-- Python `int(v)` on a decoded JSON value: ints pass through, bools coerce to
0/1, strings are parsed (ValueError on failure), everything else raises
TypeError. -/
def pyInt : JValue → Except PyErr Int
  | .num n => .ok n
  | .bool b => .ok (if b then 1 else 0)
  | .str s =>
    match pyIntParse s with
    | some n => .ok n
    | none => .error .valueError
  | _ => .error .typeError

/-! ### `json.loads`, as an executable recursive-descent parser

Numeric literals are integers only (a config using fractional numbers is
outside this model); `\u` escapes are likewise unsupported.  Objects are built
with `dictSet`, so a duplicated key keeps the last value, as in Python. -/

def skipWs : List Char → List Char
  | c :: cs => if c == ' ' || c == '\t' || c == '\n' || c == '\r' then skipWs cs else c :: cs
  | [] => []

/-- Body of a JSON string after the opening quote; `acc` holds the decoded
characters in reverse. -/
def parseStrAux : List Char → List Char → Except PyErr (String × List Char)
  | [], _ => .error .jsonDecodeError
  | '"' :: cs, acc => .ok (String.mk acc.reverse, cs)
  | '\\' :: e :: cs2, acc =>
    if e == '"' then parseStrAux cs2 ('"' :: acc)
    else if e == '\\' then parseStrAux cs2 ('\\' :: acc)
    else if e == '/' then parseStrAux cs2 ('/' :: acc)
    else if e == 'n' then parseStrAux cs2 ('\n' :: acc)
    else if e == 't' then parseStrAux cs2 ('\t' :: acc)
    else if e == 'r' then parseStrAux cs2 ('\r' :: acc)
    else .error .jsonDecodeError
  | ['\\'], _ => .error .jsonDecodeError
  | c :: cs, acc => parseStrAux cs (c :: acc)

/-- A JSON natural-number literal (JSON forbids leading zeros). -/
def parseNatNum (cs : List Char) : Except PyErr (Nat × List Char) :=
  let ds := cs.takeWhile isPyDigit
  match ds with
  | [] => .error .jsonDecodeError
  | [_] => .ok (digitsToNat ds, cs.dropWhile isPyDigit)
  | d :: _ :: _ =>
    if d == '0' then .error .jsonDecodeError
    else .ok (digitsToNat ds, cs.dropWhile isPyDigit)

def charLBrace : Char := Char.ofNat 123
def charRBrace : Char := Char.ofNat 125

mutual

def parseValue : Nat → List Char → Except PyErr (JValue × List Char)
  | 0, _ => .error .jsonDecodeError
  | fuel + 1, cs =>
    match skipWs cs with
    | [] => .error .jsonDecodeError
    | c :: rest =>
      if c == charLBrace then
        match skipWs rest with
        | c2 :: rest2 =>
          if c2 == charRBrace then .ok (.obj [], rest2)
          else parseMembers fuel (c2 :: rest2) []
        | [] => .error .jsonDecodeError
      else if c == '[' then
        match skipWs rest with
        | ']' :: rest2 => .ok (.arr [], rest2)
        | rest2 => parseElems fuel rest2 []
      else if c == '"' then
        match parseStrAux rest [] with
        | .ok (s, r) => .ok (.str s, r)
        | .error e => .error e
      else
        match c :: rest with
        | 't' :: 'r' :: 'u' :: 'e' :: r => .ok (.bool true, r)
        | 'f' :: 'a' :: 'l' :: 's' :: 'e' :: r => .ok (.bool false, r)
        | 'n' :: 'u' :: 'l' :: 'l' :: r => .ok (.null, r)
        | '-' :: r =>
          match parseNatNum r with
          | .ok (n, r2) => .ok (.num (-(n : Int)), r2)
          | .error e => .error e
        | cs2 =>
          if isPyDigit c then
            match parseNatNum cs2 with
            | .ok (n, r2) => .ok (.num (n : Int), r2)
            | .error e => .error e
          else .error .jsonDecodeError

/-- One or more `"key": value` members, then `}`. -/
def parseMembers : Nat → List Char → List (String × JValue) →
    Except PyErr (JValue × List Char)
  | 0, _, _ => .error .jsonDecodeError
  | fuel + 1, cs, acc =>
    match skipWs cs with
    | '"' :: rest =>
      match parseStrAux rest [] with
      | .error e => .error e
      | .ok (key, rest2) =>
        match skipWs rest2 with
        | ':' :: rest3 =>
          match parseValue fuel rest3 with
          | .error e => .error e
          | .ok (v, rest4) =>
            let acc2 := dictSet acc key v
            match skipWs rest4 with
            | c :: rest5 =>
              if c == ',' then parseMembers fuel rest5 acc2
              else if c == charRBrace then .ok (.obj acc2, rest5)
              else .error .jsonDecodeError
            | [] => .error .jsonDecodeError
        | _ => .error .jsonDecodeError
    | _ => .error .jsonDecodeError

/-- One or more array elements, then `]`. -/
def parseElems : Nat → List Char → List JValue → Except PyErr (JValue × List Char)
  | 0, _, _ => .error .jsonDecodeError
  | fuel + 1, cs, acc =>
    match parseValue fuel cs with
    | .error e => .error e
    | .ok (v, rest) =>
      let acc2 := acc ++ [v]
      match skipWs rest with
      | ',' :: rest2 => parseElems fuel rest2 acc2
      | ']' :: rest2 => .ok (.arr acc2, rest2)
      | _ => .error .jsonDecodeError

end

/-- `json.loads`: parse one JSON value and require only whitespace after it. -/
def json_loads (s : String) : Except PyErr JValue :=
  match parseValue (2 * s.length + 2) s.data with
  | .ok (v, rest) =>
    match skipWs rest with
    | [] => .ok v
    | _ :: _ => .error .jsonDecodeError
  | .error e => .error e

/-! ### `hashlib.md5` (RFC 1321), over byte lists, 32-bit words as `Nat % 2^32` -/

def u32 (n : Nat) : Nat := n % 4294967296

/-- Bitwise complement on a 32-bit word. -/
def u32not (x : Nat) : Nat := 4294967295 ^^^ x

/-- Left-rotation of a 32-bit word (`x < 2^32`). -/
def rotl32 (x s : Nat) : Nat := u32 ((x <<< s) ||| (x >>> (32 - s)))

/-- Round constants `floor(2^32 * |sin(i+1)|)`. -/
def md5K : List Nat := [
  3614090360, 3905402710, 606105819, 3250441966, 4118548399, 1200080426, 2821735955, 4249261313,
  1770035416, 2336552879, 4294925233, 2304563134, 1804603682, 4254626195, 2792965006, 1236535329,
  4129170786, 3225465664, 643717713, 3921069994, 3593408605, 38016083, 3634488961, 3889429448,
  568446438, 3275163606, 4107603335, 1163531501, 2850285829, 4243563512, 1735328473, 2368359562,
  4294588738, 2272392833, 1839030562, 4259657740, 2763975236, 1272893353, 4139469664, 3200236656,
  681279174, 3936430074, 3572445317, 76029189, 3654602809, 3873151461, 530742520, 3299628645,
  4096336452, 1126891415, 2878612391, 4237533241, 1700485571, 2399980690, 4293915773, 2240044497,
  1873313359, 4264355552, 2734768916, 1309151649, 4149444226, 3174756917, 718787259, 3951481745]

/-- Per-round left-rotation amounts. -/
def md5S : List Nat := [
  7, 12, 17, 22, 7, 12, 17, 22, 7, 12, 17, 22, 7, 12, 17, 22,
  5, 9, 14, 20, 5, 9, 14, 20, 5, 9, 14, 20, 5, 9, 14, 20,
  4, 11, 16, 23, 4, 11, 16, 23, 4, 11, 16, 23, 4, 11, 16, 23,
  6, 10, 15, 21, 6, 10, 15, 21, 6, 10, 15, 21, 6, 10, 15, 21]

/-- Little-endian 32-bit word `j` of a 64-byte chunk. -/
def leWord (chunk : List Nat) (j : Nat) : Nat :=
  chunk.getD (4 * j) 0 + 256 * chunk.getD (4 * j + 1) 0 +
    65536 * chunk.getD (4 * j + 2) 0 + 16777216 * chunk.getD (4 * j + 3) 0

def md5round (chunk : List Nat) (st : Nat × Nat × Nat × Nat) (i : Nat) :
    Nat × Nat × Nat × Nat :=
  let (a, b, c, d) := st
  let fg : Nat × Nat :=
    if i < 16 then ((b &&& c) ||| (u32not b &&& d), i)
    else if i < 32 then ((d &&& b) ||| (u32not d &&& c), (5 * i + 1) % 16)
    else if i < 48 then (b ^^^ c ^^^ d, (3 * i + 5) % 16)
    else (c ^^^ (b ||| u32not d), (7 * i) % 16)
  let t := u32 (fg.1 + a + md5K.getD i 0 + leWord chunk fg.2)
  (d, u32 (b + rotl32 t (md5S.getD i 0)), b, c)

def md5chunk (st : Nat × Nat × Nat × Nat) (chunk : List Nat) :
    Nat × Nat × Nat × Nat :=
  let r := (List.range 64).foldl (md5round chunk) st
  (u32 (st.1 + r.1), u32 (st.2.1 + r.2.1), u32 (st.2.2.1 + r.2.2.1), u32 (st.2.2.2 + r.2.2.2))

/-- Merkle–Damgård padding: `0x80`, zeros to 56 mod 64, then the bit length as
a 64-bit little-endian quantity. -/
def md5pad (msg : List Nat) : List Nat :=
  let len := msg.length
  msg ++ [128] ++ List.replicate ((119 - len % 64) % 64) 0 ++
    (List.range 8).map (fun i => ((8 * len) >>> (8 * i)) % 256)

def md5init : Nat × Nat × Nat × Nat := (1732584193, 4023233417, 2562383102, 271733878)

/-- Process `n` 64-byte chunks of `bs`. -/
def md5loop : Nat → List Nat → (Nat × Nat × Nat × Nat) → Nat × Nat × Nat × Nat
  | 0, _, st => st
  | n + 1, bs, st => md5loop n (bs.drop 64) (md5chunk st (bs.take 64))

/-- The 16-byte MD5 digest of a byte list. -/
def md5bytes (msg : List Nat) : List Nat :=
  let padded := md5pad msg
  let st := md5loop (padded.length / 64) padded md5init
  ([st.1, st.2.1, st.2.2.1, st.2.2.2].map
    (fun w => [w % 256, (w >>> 8) % 256, (w >>> 16) % 256, (w >>> 24) % 256])).flatten

def hexDigitChar (n : Nat) : Char :=
  if n < 10 then Char.ofNat (48 + n) else Char.ofNat (87 + n)

def byteToHex (b : Nat) : String := String.mk [hexDigitChar (b / 16), hexDigitChar (b % 16)]

/-- `hashlib.md5(...).hexdigest()`: lowercase hex of the 128-bit digest. -/
def md5hex (msg : List Nat) : String := String.join ((md5bytes msg).map byteToHex)

/-- UTF-8 encoding of one character (`str.encode(encoding='utf-8')`). -/
def utf8Char (c : Char) : List Nat :=
  let n := c.toNat
  if n < 128 then [n]
  else if n < 2048 then [192 ||| (n >>> 6), 128 ||| (n &&& 63)]
  else if n < 65536 then
    [224 ||| (n >>> 12), 128 ||| ((n >>> 6) &&& 63), 128 ||| (n &&& 63)]
  else
    [240 ||| (n >>> 18), 128 ||| ((n >>> 12) &&& 63), 128 ||| ((n >>> 6) &&& 63),
      128 ||| (n &&& 63)]

/-- UTF-8 bytes of a string. -/
def strBytes (s : String) : List Nat := (s.data.map utf8Char).flatten

set_option maxRecDepth 100000 in
/-- RFC 1321 test vector: the empty message. -/
theorem md5_empty : md5hex (strBytes "") = "d41d8cd98f00b204e9800998ecf8427e" := by decide

set_option maxRecDepth 100000 in
/-- RFC 1321 test vector: "abc". -/
theorem md5_abc : md5hex (strBytes "abc") = "900150983cd24fb0d6963f7d28e17f72" := by rfl

/-! ### The data model (`grapher_admin/models.py`), restricted to the fields
these three operations read.  Nullable Django columns become `Option`;
`published = models.BooleanField(default=False)` is NOT NULL, hence `Bool`. -/

/-- `class Chart(models.Model)` — the fields read by the core operations. -/
structure Chart where
  pk : Int                      -- implicit AutoField primary key
  name : String                 -- name = CharField(max_length=255)
  config : String               -- config = TextField()
  updated_at : String           -- updated_at = DateTimeField(auto_now=True), as str()
  origin_url : String           -- origin_url = CharField(max_length=255)
  notes : String                -- notes = TextField()
  slug : Option String          -- slug = CharField(..., blank=True, null=True)
  published : Bool              -- published = BooleanField(default=False)
  type : Option String          -- type = CharField(..., blank=True, null=True)
  deriving DecidableEq, Repr

/-- `class Variable(models.Model)` — the fields read by `make_cache_tag`. -/
structure Variable where
  pk : Int                      -- implicit AutoField primary key
  updated_at : Option String    -- updated_at = DateTimeField(blank=True, null=True)
  deriving DecidableEq, Repr

/-- `class Logo(models.Model)` — the fields read by `get_config_with_url`.
Note `name` carries no unique constraint. -/
structure Logo where
  name : String                 -- name = CharField(max_length=100)
  svg : String                  -- svg = TextField()
  deriving DecidableEq, Repr

/-- `class ChartSlugRedirect(models.Model)`; `slug` is declared unique. -/
structure ChartSlugRedirect where
  slug : String                 -- slug = CharField(unique=True, max_length=255)
  chart_id : Int                -- chart_id = IntegerField()
  deriving DecidableEq, Repr

/-- Python `str()` of a nullable datetime: `None` prints as "None". -/
def strOfOptDT : Option String → String
  | some s => s
  | none => "None"

/-- `<Model>.objects.get(...)` on the rows matching the filter: exactly one row
or a `DoesNotExist` / `MultipleObjectsReturned` exception. -/
def djangoGet {α : Type} : List α → Except PyErr α
  | [a] => .ok a
  | [] => .error .doesNotExist
  | _ => .error .multipleObjectsReturned

/-! ### `Chart.make_cache_tag`

```python
def make_cache_tag(self):
    variable_cache_tag = str(self.updated_at) + ' + ' + Chart.owid_commit()
    config = json.loads(self.config)
    dims = config['chart-dimensions']
    varids = [int(d['variableId']) for d in dims if 'variableId' in d]
    vartimestamps = Variable.objects.filter(pk__in=varids)
    updated_at_list = []
    for each in vartimestamps:
        updated_at_list.append(str(each.updated_at))
    variable_cache_tag += ' + '.join(updated_at_list)
    m = hashlib.md5()
    m.update(variable_cache_tag.encode(encoding='utf-8'))
    variable_cache_tag = m.hexdigest()
    return variable_cache_tag
```

`Chart.owid_commit()` shells out to `git rev-parse HEAD`; that external build
identifier is passed in as the argument `commit`.  The variable table is the
argument `variables`, in row order. -/

/-- `[int(d['variableId']) for d in dims if 'variableId' in d]`, evaluated left
to right with Python's exception behaviour. -/
def collectVarIds : List JValue → Except PyErr (List Int)
  | [] => .ok []
  | d :: ds =>
    match pyContains "variableId" d with
    | .error e => .error e
    | .ok false => collectVarIds ds
    | .ok true =>
      match pyGetItem d "variableId" with
      | .error e => .error e
      | .ok v =>
        match pyInt v with
        | .error e => .error e
        | .ok n =>
          match collectVarIds ds with
          | .error e => .error e
          | .ok ns => .ok (n :: ns)

def make_cache_tag (self : Chart) (variableStore : List Variable) (commit : String) :
    Except PyErr String := do
  let variable_cache_tag := self.updated_at ++ " + " ++ commit
  let config ← json_loads self.config
  let dims ← pyGetItem config "chart-dimensions"
  let dimList ← pyIter dims
  let varids ← collectVarIds dimList
  let vartimestamps := variableStore.filter (fun v => varids.contains v.pk)
  let updated_at_list := vartimestamps.map (fun v => strOfOptDT v.updated_at)
  let variable_cache_tag := variable_cache_tag ++ String.intercalate " + " updated_at_list
  pure (md5hex (strBytes variable_cache_tag))

/-! ### `Chart.get_config_with_url`

```python
@classmethod
def get_config_with_url(cls, chart):
    config = json.loads(chart.config)
    config['id'] = chart.pk
    config['title'] = chart.name
    config['chart-type'] = chart.type
    config['internalNotes'] = chart.notes
    config['slug'] = chart.slug
    config['data-entry-url'] = chart.origin_url
    config['published'] = chart.published
    logos = []
    for each in list(Logo.objects.filter(name__in=config['logos'])):
        logos.append(each.svg)
    config['logosSVG'] = logos
    return config
```

The logo table is the argument `logoStore`, in row order; `filter(name__in=…)`
keeps rows whose name equals some element of the decoded `logos` iterable. -/

/-- A nullable text field as a JSON value (`None` serialises to `null`). -/
def jOfOptStr : Option String → JValue
  | some s => .str s
  | none => .null

def get_config_with_url (chart : Chart) (logoStore : List Logo) :
    Except PyErr JValue := do
  let config ← json_loads chart.config
  let config ← pySetItem config "id" (.num chart.pk)
  let config ← pySetItem config "title" (.str chart.name)
  let config ← pySetItem config "chart-type" (jOfOptStr chart.type)
  let config ← pySetItem config "internalNotes" (.str chart.notes)
  let config ← pySetItem config "slug" (jOfOptStr chart.slug)
  let config ← pySetItem config "data-entry-url" (.str chart.origin_url)
  let config ← pySetItem config "published" (.bool chart.published)
  let logosRequested ← pyGetItem config "logos"
  let names ← pyIter logosRequested
  let logos := (logoStore.filter (fun lg => jStrMatches names lg.name)).map
    (fun lg => JValue.str lg.svg)
  pySetItem config "logosSVG" (.arr logos)

/-! ### `Chart.find_with_redirects`

```python
@classmethod
def find_with_redirects(cls, slug):
    try:
        intslug = int(slug)
    except ValueError:
        intslug = None
    try:
        chart = Chart.objects.get((Q(slug=slug) | Q(pk=intslug)), published__isnull=False)
    except Chart.DoesNotExist:
        try:
            redirect = ChartSlugRedirect.objects.get(slug=slug)
        except ChartSlugRedirect.DoesNotExist:
            return False
        chart = Chart.objects.get(pk=redirect.chart_id, published__isnull=False)
    return chart
```

`return False` is modelled as `.ok none`, a returned chart as `.ok (some c)`,
and an uncaught exception as `.error e`. -/

/-- `published__isnull=False` filters out rows whose `published` column is
NULL.  The column is a NOT NULL `BooleanField`, so no row is excluded: the
restriction is vacuous and does *not* test the flag's value. -/
def published_isnull (_c : Chart) : Bool := false

/-- `Q(slug=slug) | Q(pk=intslug)`: a NULL slug column matches no string, and
`pk=None` matches no row. -/
def chartLookupPred (slug : String) (intslug : Option Int) (c : Chart) : Bool :=
  (c.slug == some slug ||
    match intslug with
    | some n => c.pk == n
    | none => false) &&
  !published_isnull c

/-- The rows matched by the first-stage query of `find_with_redirects`. -/
def chartLookupRows (charts : List Chart) (slug : String) : List Chart :=
  charts.filter (chartLookupPred slug (pyIntParse slug))

/-- The rows matched by the redirect-target query
`Chart.objects.get(pk=redirect.chart_id, published__isnull=False)`. -/
def redirectTargetRows (charts : List Chart) (chart_id : Int) : List Chart :=
  charts.filter (fun c => c.pk == chart_id && !published_isnull c)

def find_with_redirects (charts : List Chart)
    (redirects : List ChartSlugRedirect) (slug : String) :
    Except PyErr (Option Chart) :=
  let intslug := pyIntParse slug
  match djangoGet (charts.filter (chartLookupPred slug intslug)) with
  | .ok chart => .ok (some chart)
  | .error .doesNotExist =>
    match djangoGet (redirects.filter (fun r => r.slug == slug)) with
    | .ok redirect =>
      match djangoGet (redirectTargetRows charts redirect.chart_id) with
      | .ok chart => .ok (some chart)
      | .error e => .error e
    | .error .doesNotExist => .ok none
    | .error e => .error e
  | .error e => .error e

/-! ### Helper lemmas -/

theorem ok_bind {α β : Type} (a : α) (f : α → Except PyErr β) :
    (Except.ok a >>= f) = f a := rfl

theorem error_bind {α β : Type} (e : PyErr) (f : α → Except PyErr β) :
    ((Except.error e : Except PyErr α) >>= f) = .error e := rfl

theorem map_ok {α β : Type} (a : α) (f : α → β) :
    (Except.ok a : Except PyErr α).map f = .ok (f a) := rfl

theorem map_error {α β : Type} (e : PyErr) (f : α → β) :
    (Except.error e : Except PyErr α).map f = (.error e : Except PyErr β) := rfl

theorem lookup_dictSet_self (kvs : List (String × JValue)) (k : String) (v : JValue) :
    lookupKV (dictSet kvs k v) k = some v := by
  induction kvs with
  | nil => simp [dictSet, lookupKV]
  | cons kv rest ih =>
    obtain ⟨k0, v0⟩ := kv
    by_cases h : k0 = k
    · simp [dictSet, lookupKV, h]
    · simp [dictSet, lookupKV, h, ih]

theorem lookup_dictSet_ne (kvs : List (String × JValue)) (k k2 : String) (v : JValue)
    (h : k2 ≠ k) : lookupKV (dictSet kvs k v) k2 = lookupKV kvs k2 := by
  induction kvs with
  | nil => simp [dictSet, lookupKV, Ne.symm h]
  | cons kv rest ih =>
    obtain ⟨k0, v0⟩ := kv
    by_cases h0 : k0 = k
    · subst h0
      simp [dictSet, lookupKV, Ne.symm h]
    · simp [dictSet, lookupKV, h0, ih]

theorem djangoGet_ok_mem {α : Type} {l : List α} {a : α}
    (h : djangoGet l = .ok a) : a ∈ l := by
  match l with
  | [] => simp [djangoGet] at h
  | [x] =>
    simp [djangoGet] at h
    simp [h]
  | x :: y :: rest => simp [djangoGet] at h

/-- C6: a chart whose stored `config` is not valid JSON makes both
`make_cache_tag` and `get_config_with_url` fail with the JSON-decode error
(`MalformedConfig`), producing no output. -/
theorem malformed_config_fails
    (chart : Chart) (variableStore : List Variable) (commit : String)
    (logoStore : List Logo) (e : PyErr)
    (h : json_loads chart.config = .error e) :
    make_cache_tag chart variableStore commit = .error e ∧
    get_config_with_url chart logoStore = .error e := by
  constructor
  · unfold make_cache_tag
    rw [h]
    rfl
  · unfold get_config_with_url
    rw [h]
    rfl

/-- Witness for C6 at a concrete chart whose config is not JSON. -/
def chartBadJson : Chart :=
  { pk := 1, name := "n", config := "not json", updated_at := "2017-01-01 00:00:00",
    origin_url := "u", notes := "", slug := some "s", published := true, type := none }

theorem malformed_config_fails_witness :
    json_loads chartBadJson.config = .error .jsonDecodeError ∧
    make_cache_tag chartBadJson [] "commit" = .error .jsonDecodeError ∧
    get_config_with_url chartBadJson [] = .error .jsonDecodeError := by
  refine ⟨by rfl, ?_⟩
  have h := malformed_config_fails chartBadJson [] "commit" [] .jsonDecodeError (by rfl)
  exact ⟨h.1, h.2⟩

/-- The retrieved variable timestamps of `make_cache_tag`: the `str(updated_at)`
of every variable whose pk is among the collected `variableId`s, in store
(row) order. -/
def cacheVarTimestamps (self : Chart) (variableStore : List Variable) :
    Except PyErr (List String) := do
  let config ← json_loads self.config
  let dims ← pyGetItem config "chart-dimensions"
  let dimList ← pyIter dims
  let varids ← collectVarIds dimList
  pure ((variableStore.filter (fun v => varids.contains v.pk)).map
    (fun v => strOfOptDT v.updated_at))

/-- `make_cache_tag` is the MD5 hex digest of the composite string
`str(updated_at) + ' + ' + commit` followed by the `' + '`-joined retrieved
variable timestamps. -/
theorem make_cache_tag_eq (c : Chart) (vs : List Variable) (k : String) :
    make_cache_tag c vs k =
      (cacheVarTimestamps c vs).map (fun ts =>
        md5hex (strBytes ((c.updated_at ++ " + " ++ k) ++
          String.intercalate " + " ts))) := by
  unfold make_cache_tag cacheVarTimestamps
  cases json_loads c.config with
  | error e => rfl
  | ok cfg =>
    simp only [ok_bind, map_ok, map_error]
    cases pyGetItem cfg "chart-dimensions" with
    | error e => rfl
    | ok dims =>
      simp only [ok_bind, map_ok, map_error]
      cases pyIter dims with
      | error e => rfl
      | ok dimList =>
        simp only [ok_bind, map_ok, map_error]
        cases collectVarIds dimList with
        | error e => rfl
        | ok varids => rfl

/-- C1: when `make_cache_tag` succeeds, the tag is the MD5 hex digest of the
composite string built from the chart's `str(updated_at)`, then the build
identifier, then the retrieved variable timestamps in store order; hence equal
chart timestamp, equal build identifier and equal retrieved timestamps give
the identical tag. -/
theorem make_cache_tag_md5_deterministic
    (c1 c2 : Chart) (vs1 vs2 : List Variable) (k1 k2 t1 t2 : String)
    (h1 : make_cache_tag c1 vs1 k1 = .ok t1)
    (h2 : make_cache_tag c2 vs2 k2 = .ok t2) :
    (∃ ts, cacheVarTimestamps c1 vs1 = .ok ts ∧
      t1 = md5hex (strBytes ((c1.updated_at ++ " + " ++ k1) ++
        String.intercalate " + " ts))) ∧
    (c1.updated_at = c2.updated_at → k1 = k2 →
      cacheVarTimestamps c1 vs1 = cacheVarTimestamps c2 vs2 → t1 = t2) := by
  rw [make_cache_tag_eq] at h1 h2
  constructor
  · cases hts : cacheVarTimestamps c1 vs1 with
    | error e =>
      rw [hts, map_error] at h1
      exact absurd h1 (by simp)
    | ok ts =>
      rw [hts, map_ok] at h1
      exact ⟨ts, rfl, (Except.ok.inj h1).symm⟩
  · intro hu hk hts
    rw [hu, hk, hts] at h1
    rw [h1] at h2
    exact Except.ok.inj h2

/-- C1 witness fixtures: two distinct charts agreeing on timestamp, with
empty dimension lists. -/
def chartDimsA : Chart :=
  { pk := 1, name := "a", config := "\x7b\"chart-dimensions\": []\x7d",
    updated_at := "2017-01-01 00:00:00", origin_url := "", notes := "",
    slug := some "a", published := true, type := none }

def chartDimsB : Chart :=
  { chartDimsA with pk := 2, name := "b", slug := some "b" }

set_option maxRecDepth 100000 in
/-- Witness for C1: both concrete charts hash to the digest of the concrete
composite string. -/
theorem make_cache_tag_md5_deterministic_witness :
    ∃ ts, cacheVarTimestamps chartDimsA [] = .ok ts ∧
      md5hex (strBytes "2017-01-01 00:00:00 + deadbeef") =
        md5hex (strBytes ((chartDimsA.updated_at ++ " + " ++ "deadbeef") ++
          String.intercalate " + " ts)) :=
  (make_cache_tag_md5_deterministic chartDimsA chartDimsB [] [] "deadbeef" "deadbeef"
    (md5hex (strBytes "2017-01-01 00:00:00 + deadbeef"))
    (md5hex (strBytes "2017-01-01 00:00:00 + deadbeef"))
    (by rfl) (by rfl)).1

/-- The seven relational-field overwrites that `get_config_with_url` performs
on the decoded config dict, in program order. -/
@[reducible] def overrideKVs (chart : Chart) (kvs : List (String × JValue)) :
    List (String × JValue) :=
  dictSet (dictSet (dictSet (dictSet (dictSet (dictSet (dictSet kvs
    "id" (.num chart.pk))
    "title" (.str chart.name))
    "chart-type" (jOfOptStr chart.type))
    "internalNotes" (.str chart.notes))
    "slug" (jOfOptStr chart.slug))
    "data-entry-url" (.str chart.origin_url))
    "published" (.bool chart.published)

/-- C2: whenever `get_config_with_url` returns a config object, that object
maps `id`, `title`, `chart-type`, `internalNotes`, `slug`, `data-entry-url`
and `published` to the chart's pk, name, type, notes, slug, origin_url and
published fields — regardless of what the stored JSON blob held under those
keys. -/
theorem get_config_with_url_overrides
    (chart : Chart) (logoStore : List Logo) (cfg out : JValue)
    (hjson : json_loads chart.config = .ok cfg)
    (hout : get_config_with_url chart logoStore = .ok out) :
    pyGetItem out "id" = .ok (.num chart.pk) ∧
    pyGetItem out "title" = .ok (.str chart.name) ∧
    pyGetItem out "chart-type" = .ok (jOfOptStr chart.type) ∧
    pyGetItem out "internalNotes" = .ok (.str chart.notes) ∧
    pyGetItem out "slug" = .ok (jOfOptStr chart.slug) ∧
    pyGetItem out "data-entry-url" = .ok (.str chart.origin_url) ∧
    pyGetItem out "published" = .ok (.bool chart.published) := by
  unfold get_config_with_url at hout
  rw [hjson, ok_bind] at hout
  cases cfg with
  | null => exact absurd hout (by simp [pySetItem, error_bind])
  | bool b => exact absurd hout (by simp [pySetItem, error_bind])
  | num n => exact absurd hout (by simp [pySetItem, error_bind])
  | str s => exact absurd hout (by simp [pySetItem, error_bind])
  | arr xs => exact absurd hout (by simp [pySetItem, error_bind])
  | obj kvs =>
    simp only [pySetItem, ok_bind] at hout
    have hout2 : (pyGetItem (JValue.obj (overrideKVs chart kvs)) "logos" >>=
        fun logosRequested => pyIter logosRequested >>= fun names =>
          pySetItem (JValue.obj (overrideKVs chart kvs)) "logosSVG"
            (.arr ((logoStore.filter (fun lg => jStrMatches names lg.name)).map
              (fun lg => JValue.str lg.svg)))) = .ok out := hout
    cases hl : pyGetItem (JValue.obj (overrideKVs chart kvs)) "logos" with
    | error e =>
      rw [hl, error_bind] at hout2
      exact absurd hout2 (by simp)
    | ok lv =>
      rw [hl, ok_bind] at hout2
      cases hn : pyIter lv with
      | error e =>
        rw [hn, error_bind] at hout2
        exact absurd hout2 (by simp)
      | ok names =>
        rw [hn, ok_bind] at hout2
        simp only [pySetItem] at hout2
        have hshape := (Except.ok.inj hout2).symm
        subst hshape
        refine ⟨?_, ?_, ?_, ?_, ?_, ?_, ?_⟩ <;>
          simp [pyGetItem, overrideKVs, lookup_dictSet_self, lookup_dictSet_ne]

/-- C2 witness fixture: the stored blob already holds `title` and `id` keys,
which the relational fields must override. -/
def chartOverride : Chart :=
  { pk := 5, name := "Real Title",
    config := "\x7b\"title\": \"OLD\", \"id\": 99, \"logos\": [\"OWID\"], \"tab\": \"chart\"\x7d",
    updated_at := "2017-02-03 04:05:06", origin_url := "https://example.org/entry",
    notes := "some notes", slug := some "real-slug", published := false,
    type := some "LineChart" }

/-- The config object `get_config_with_url` produces for `chartOverride`. -/
def chartOverrideOut : JValue :=
  .obj [("title", .str "Real Title"), ("id", .num 5),
    ("logos", .arr [.str "OWID"]), ("tab", .str "chart"),
    ("chart-type", .str "LineChart"), ("internalNotes", .str "some notes"),
    ("slug", .str "real-slug"), ("data-entry-url", .str "https://example.org/entry"),
    ("published", .bool false), ("logosSVG", .arr [.str "<svg/>"])]

/-- Witness for C2: the blob's `title: "OLD"` and `id: 99` are overridden by
the chart's fields in the concrete output. -/
theorem get_config_with_url_overrides_witness :
    pyGetItem chartOverrideOut "id" = .ok (.num 5) ∧
    pyGetItem chartOverrideOut "title" = .ok (.str "Real Title") ∧
    pyGetItem chartOverrideOut "chart-type" = .ok (.str "LineChart") ∧
    pyGetItem chartOverrideOut "internalNotes" = .ok (.str "some notes") ∧
    pyGetItem chartOverrideOut "slug" = .ok (.str "real-slug") ∧
    pyGetItem chartOverrideOut "data-entry-url" =
      .ok (.str "https://example.org/entry") ∧
    pyGetItem chartOverrideOut "published" = .ok (.bool false) :=
  get_config_with_url_overrides chartOverride [⟨"OWID", "<svg/>"⟩]
    (.obj [("title", .str "OLD"), ("id", .num 99),
      ("logos", .arr [.str "OWID"]), ("tab", .str "chart")])
    chartOverrideOut (by rfl) (by rfl)

theorem djangoGet_nil {α : Type} : djangoGet ([] : List α) = .error .doesNotExist := rfl

theorem djangoGet_single {α : Type} (a : α) : djangoGet [a] = .ok a := rfl

/-- C3: when the first-stage lookup matches nothing, a redirect row exists for
the identifier, and the redirect-target lookup matches nothing, the uncaught
`Chart.DoesNotExist` surfaces (the `DanglingRedirect` condition) — an outcome
distinct from the `return False` (`NotFound`) of the no-redirect case. -/
theorem find_dangling_redirect_distinct
    (charts : List Chart) (redirects : List ChartSlugRedirect) (slug : String)
    (r : ChartSlugRedirect)
    (hfirst : chartLookupRows charts slug = [])
    (hred : redirects.filter (fun x => x.slug == slug) = [r])
    (htarget : redirectTargetRows charts r.chart_id = []) :
    find_with_redirects charts redirects slug = .error .doesNotExist ∧
    find_with_redirects charts redirects slug ≠ .ok none := by
  unfold chartLookupRows at hfirst
  have hmain : find_with_redirects charts redirects slug = .error .doesNotExist := by
    simp only [find_with_redirects]
    rw [hfirst]
    simp only [djangoGet_nil]
    rw [hred]
    simp only [djangoGet_single]
    rw [htarget]
    simp only [djangoGet_nil]
  exact ⟨hmain, by rw [hmain]; simp⟩

/-- C3 witness fixtures: one published chart with pk 42, a redirect
`broken -> 999` whose target id matches no chart. -/
def chartPk42 : Chart :=
  { pk := 42, name := "c42", config := "\x7b\x7d", updated_at := "U",
    origin_url := "", notes := "", slug := some "c42-slug", published := true,
    type := none }

theorem find_dangling_redirect_distinct_witness :
    find_with_redirects [chartPk42] [⟨"broken", 999⟩] "broken" =
      .error .doesNotExist ∧
    find_with_redirects [chartPk42] [⟨"broken", 999⟩] "broken" ≠ .ok none :=
  find_dangling_redirect_distinct [chartPk42] [⟨"broken", 999⟩] "broken"
    ⟨"broken", 999⟩ (by rfl) (by rfl) (by rfl)

/-- Counterexample to C4 as stated: the first-stage lookup returns a chart
whose `published` flag is `false`, because `published__isnull=False` on the
NOT NULL boolean column excludes nothing. -/
def chartUnpub : Chart :=
  { pk := 1, name := "u", config := "\x7b\x7d", updated_at := "U",
    origin_url := "", notes := "", slug := some "x", published := false,
    type := none }

theorem find_first_stage_unpublished_cex :
    djangoGet (chartLookupRows [chartUnpub] "x") = .ok chartUnpub ∧
    chartUnpub.published = false ∧
    find_with_redirects [chartUnpub] [] "x" = .ok (some chartUnpub) :=
  ⟨rfl, rfl, rfl⟩

/-- C4 as amended: the first lookup stage returns a chart only if its slug
equals the identifier or its pk equals the Python-int parse of the identifier;
the `published__isnull=False` restriction is vacuous (the column is NOT NULL),
so the publication flag is not tested; a non-integer identifier admits no
id-based match. -/
theorem find_first_stage_match
    (charts : List Chart) (slug : String) (c : Chart)
    (h : djangoGet (chartLookupRows charts slug) = .ok c) :
    (c.slug = some slug ∨ ∃ n, pyIntParse slug = some n ∧ c.pk = n) ∧
    (pyIntParse slug = none → c.slug = some slug) ∧
    ∀ redirects, find_with_redirects charts redirects slug = .ok (some c) := by
  have hmem := djangoGet_ok_mem h
  unfold chartLookupRows at hmem
  have hpred := (List.mem_filter.mp hmem).2
  unfold chartLookupPred published_isnull at hpred
  simp only [Bool.not_false, Bool.and_true] at hpred
  refine ⟨?_, ?_, ?_⟩
  · cases hp : pyIntParse slug with
    | none =>
      rw [hp] at hpred
      simp at hpred
      exact Or.inl hpred
    | some n =>
      rw [hp] at hpred
      simp at hpred
      rcases hpred with h1 | h2
      · exact Or.inl h1
      · exact Or.inr ⟨n, rfl, h2⟩
  · intro hp
    rw [hp] at hpred
    simp at hpred
    exact hpred
  · intro redirects
    simp only [find_with_redirects]
    unfold chartLookupRows at h
    rw [h]

/-- C4 witness fixture: a published chart found by slug. -/
def chartPub : Chart :=
  { pk := 42, name := "p", config := "\x7b\x7d", updated_at := "U",
    origin_url := "", notes := "", slug := some "pop-growth", published := true,
    type := none }

theorem find_first_stage_match_witness :
    (chartPub.slug = some "pop-growth" ∨
      ∃ n, pyIntParse "pop-growth" = some n ∧ chartPub.pk = n) ∧
    (pyIntParse "pop-growth" = none → chartPub.slug = some "pop-growth") ∧
    ∀ redirects, find_with_redirects [chartPub] redirects "pop-growth" =
      .ok (some chartPub) :=
  find_first_stage_match [chartPub] "pop-growth" chartPub (by rfl)

/-- Counterexample to C5 as stated: no *published* chart matches the first
stage (the only slug match is unpublished) and a redirect maps the identifier
to the published chart with pk 42, yet the code returns the unpublished
slug match, not the redirect target. -/
def chartOldUnpub : Chart :=
  { pk := 1, name := "old", config := "\x7b\x7d", updated_at := "U",
    origin_url := "", notes := "", slug := some "old-slug", published := false,
    type := none }

def chartTarget42 : Chart :=
  { pk := 42, name := "t", config := "\x7b\x7d", updated_at := "U",
    origin_url := "", notes := "", slug := some "target-42", published := true,
    type := none }

theorem find_redirect_shadowed_cex :
    chartLookupRows [chartOldUnpub, chartTarget42] "old-slug" = [chartOldUnpub] ∧
    chartOldUnpub.published = false ∧
    chartTarget42.pk = 42 ∧
    chartTarget42.published = true ∧
    find_with_redirects [chartOldUnpub, chartTarget42] [⟨"old-slug", 42⟩]
      "old-slug" = .ok (some chartOldUnpub) ∧
    chartOldUnpub ≠ chartTarget42 :=
  ⟨rfl, rfl, rfl, rfl, rfl, by decide⟩

/-- C5 as amended: when the first-stage lookup matches *no row at all*
(published or not): a redirect row whose target id matches an existing chart
resolves to that chart, and a missing redirect row yields `NotFound`
(`return False`, modelled `.ok none`). -/
theorem find_redirect_resolution
    (charts : List Chart) (redirects : List ChartSlugRedirect) (slug : String)
    (hfirst : chartLookupRows charts slug = []) :
    (∀ r c, redirects.filter (fun x => x.slug == slug) = [r] →
      redirectTargetRows charts r.chart_id = [c] →
      find_with_redirects charts redirects slug = .ok (some c)) ∧
    (redirects.filter (fun x => x.slug == slug) = [] →
      find_with_redirects charts redirects slug = .ok none) := by
  unfold chartLookupRows at hfirst
  constructor
  · intro r c hr hc
    simp only [find_with_redirects]
    rw [hfirst]
    simp only [djangoGet_nil]
    rw [hr]
    simp only [djangoGet_single]
    rw [hc]
    simp only [djangoGet_single]
  · intro hr
    simp only [find_with_redirects]
    rw [hfirst]
    simp only [djangoGet_nil]
    rw [hr]
    simp only [djangoGet_nil]

/-- C5 witness fixtures: a redirect `old-slug -> 42` to a published chart,
and a ghost identifier with neither chart nor redirect. -/
def chartRed42 : Chart :=
  { pk := 42, name := "t", config := "\x7b\x7d", updated_at := "U",
    origin_url := "", notes := "", slug := some "new-slug", published := true,
    type := none }

theorem find_redirect_resolution_witness :
    find_with_redirects [chartRed42] [⟨"old-slug", 42⟩] "old-slug" =
      .ok (some chartRed42) ∧
    find_with_redirects [chartRed42] [⟨"old-slug", 42⟩] "ghost" = .ok none :=
  ⟨(find_redirect_resolution [chartRed42] [⟨"old-slug", 42⟩] "old-slug"
      (by rfl)).1 ⟨"old-slug", 42⟩ chartRed42 (by rfl) (by rfl),
    (find_redirect_resolution [chartRed42] [⟨"old-slug", 42⟩] "ghost"
      (by rfl)).2 (by rfl)⟩

/-- Counterexample to C7 as stated: on a valid-JSON config with no `logos`
key, `get_config_with_url` raises `KeyError('logos')` instead of treating the
logo list as empty. -/
def chartNoLogos : Chart :=
  { pk := 3, name := "n", config := "\x7b\"tab\": \"map\"\x7d", updated_at := "U",
    origin_url := "", notes := "", slug := none, published := true, type := none }

theorem get_config_missing_logos_cex :
    json_loads chartNoLogos.config = .ok (.obj [("tab", .str "map")]) ∧
    get_config_with_url chartNoLogos [] = .error (.keyError "logos") :=
  ⟨rfl, rfl⟩

/-- C7 as amended: a valid-JSON object config lacking the `logos` key makes
`get_config_with_url` fail with `KeyError('logos')` (the subscript
`config['logos']` is unguarded). -/
theorem get_config_missing_logos_fails
    (chart : Chart) (logoStore : List Logo) (kvs : List (String × JValue))
    (hjson : json_loads chart.config = .ok (.obj kvs))
    (hno : lookupKV kvs "logos" = none) :
    get_config_with_url chart logoStore = .error (.keyError "logos") := by
  unfold get_config_with_url
  rw [hjson, ok_bind]
  simp only [pySetItem, ok_bind]
  have hl : pyGetItem (JValue.obj (overrideKVs chart kvs)) "logos" =
      .error (.keyError "logos") := by
    simp [pyGetItem, overrideKVs, lookup_dictSet_ne, hno]
  rw [hl, error_bind]

theorem get_config_missing_logos_fails_witness :
    get_config_with_url chartNoLogos [⟨"OWID", "<svg/>"⟩] =
      .error (.keyError "logos") :=
  get_config_missing_logos_fails chartNoLogos [⟨"OWID", "<svg/>"⟩]
    [("tab", .str "map")] (by rfl) (by rfl)

/-- Counterexample to C8 as stated: a valid-JSON config lacking the
`chart-dimensions` key makes `make_cache_tag` raise
`KeyError('chart-dimensions')` rather than produce a tag. -/
def chartNoDims : Chart :=
  { pk := 4, name := "n", config := "\x7b\"logos\": []\x7d", updated_at := "U",
    origin_url := "", notes := "", slug := none, published := true, type := none }

theorem make_cache_tag_missing_dims_cex :
    json_loads chartNoDims.config = .ok (.obj [("logos", .arr [])]) ∧
    make_cache_tag chartNoDims [] "commit" =
      .error (.keyError "chart-dimensions") :=
  ⟨rfl, rfl⟩

/-- Dimensions none of which has a `variableId` key contribute no ids. -/
theorem collectVarIds_none (dims : List JValue)
    (h : ∀ d ∈ dims, pyContains "variableId" d = .ok false) :
    collectVarIds dims = .ok [] := by
  induction dims with
  | nil => rfl
  | cons d ds ih =>
    unfold collectVarIds
    rw [h d (List.mem_cons_self d ds)]
    exact ih (fun d2 hd2 => h d2 (List.mem_cons_of_mem d hd2))

/-- C8 as amended: a config whose object lacks `chart-dimensions` fails with
`KeyError('chart-dimensions')`; a config whose dimension records all lack
`variableId` still yields the tag over zero variable timestamps. -/
theorem make_cache_tag_dims_degenerate
    (chart : Chart) (variableStore : List Variable) (commit : String)
    (kvs : List (String × JValue))
    (hjson : json_loads chart.config = .ok (.obj kvs)) :
    (lookupKV kvs "chart-dimensions" = none →
      make_cache_tag chart variableStore commit =
        .error (.keyError "chart-dimensions")) ∧
    (∀ dims, lookupKV kvs "chart-dimensions" = some (.arr dims) →
      (∀ d ∈ dims, pyContains "variableId" d = .ok false) →
      make_cache_tag chart variableStore commit =
        .ok (md5hex (strBytes (chart.updated_at ++ " + " ++ commit)))) := by
  constructor
  · intro hno
    unfold make_cache_tag
    rw [hjson, ok_bind]
    have hd : pyGetItem (JValue.obj kvs) "chart-dimensions" =
        .error (.keyError "chart-dimensions") := by
      simp [pyGetItem, hno]
    rw [hd, error_bind]
  · intro dims hdims hall
    rw [make_cache_tag_eq]
    have hts : cacheVarTimestamps chart variableStore = .ok [] := by
      unfold cacheVarTimestamps
      rw [hjson, ok_bind]
      have hd : pyGetItem (JValue.obj kvs) "chart-dimensions" = .ok (.arr dims) := by
        simp [pyGetItem, hdims]
      rw [hd, ok_bind]
      have hi : pyIter (JValue.arr dims) = .ok dims := rfl
      rw [hi, ok_bind, collectVarIds_none dims hall, ok_bind]
      have hf : variableStore.filter (fun v => ([] : List Int).contains v.pk) = [] := by
        induction variableStore with
        | nil => rfl
        | cons v vs ih => simp [List.filter, ih]
      rw [hf]
      rfl
    rw [hts, map_ok]
    have hempty : String.intercalate " + " ([] : List String) = "" := rfl
    rw [hempty]
    simp

/-- C8 witness fixture: one dimension record, without a `variableId` key. -/
def chartDimsNoVar : Chart :=
  { pk := 4, name := "n",
    config := "\x7b\"chart-dimensions\": [\x7b\"property\": \"y\"\x7d]\x7d",
    updated_at := "U", origin_url := "", notes := "", slug := none,
    published := true, type := none }

set_option maxRecDepth 100000 in
theorem make_cache_tag_dims_degenerate_witness :
    make_cache_tag chartDimsNoVar [⟨9, some "T9"⟩] "c0ffee" =
      .ok (md5hex (strBytes "U + c0ffee")) :=
  (make_cache_tag_dims_degenerate chartDimsNoVar [⟨9, some "T9"⟩] "c0ffee"
    [("chart-dimensions", .arr [.obj [("property", .str "y")]])] (by rfl)).2
    [.obj [("property", .str "y")]] (by rfl)
    (by
      intro d hd
      simp only [List.mem_singleton] at hd
      subst hd
      rfl)

/-- Counterexample to C9 as stated: logos are requested in order A, B but the
store holds the B row before the A row, so `logosSVG` comes out in store
order — the reverse of the requested order. -/
def logoRowB : Logo := ⟨"B", "bsvg"⟩

def logoRowA : Logo := ⟨"A", "asvg"⟩

def chartLogosAB : Chart :=
  { pk := 6, name := "nm", config := "\x7b\"logos\": [\"A\", \"B\"]\x7d",
    updated_at := "U", origin_url := "o", notes := "i", slug := some "sl",
    published := true, type := none }

theorem logosSVG_order_cex :
    (get_config_with_url chartLogosAB [logoRowB, logoRowA] >>= fun out =>
      pyGetItem out "logosSVG") = .ok (.arr [.str "bsvg", .str "asvg"]) ∧
    ["bsvg", "asvg"] ≠ ["asvg", "bsvg"] :=
  ⟨rfl, by decide⟩

/-- C9 as amended: `logosSVG` holds the SVG of every store row whose name
equals some string element of the requested `logos` value, in store (row)
order — one entry per matching row, with requested-name order and multiplicity
ignored. -/
theorem logosSVG_store_order
    (chart : Chart) (logoStore : List Logo) (kvs : List (String × JValue))
    (lv : JValue) (names : List JValue) (out : JValue)
    (hjson : json_loads chart.config = .ok (.obj kvs))
    (hlv : lookupKV kvs "logos" = some lv)
    (hnames : pyIter lv = .ok names)
    (hout : get_config_with_url chart logoStore = .ok out) :
    pyGetItem out "logosSVG" = .ok (.arr
      ((logoStore.filter (fun lg => jStrMatches names lg.name)).map
        (fun lg => JValue.str lg.svg))) := by
  unfold get_config_with_url at hout
  rw [hjson, ok_bind] at hout
  simp only [pySetItem, ok_bind] at hout
  have hl : pyGetItem (JValue.obj (overrideKVs chart kvs)) "logos" = .ok lv := by
    simp [pyGetItem, overrideKVs, lookup_dictSet_ne, hlv]
  rw [hl, ok_bind, hnames, ok_bind] at hout
  have hshape := (Except.ok.inj hout).symm
  subst hshape
  simp [pyGetItem, lookup_dictSet_self]

theorem logosSVG_store_order_witness :
    pyGetItem (.obj
      [("logos", .arr [.str "A", .str "B"]), ("id", .num 6),
        ("title", .str "nm"), ("chart-type", .null),
        ("internalNotes", .str "i"), ("slug", .str "sl"),
        ("data-entry-url", .str "o"), ("published", .bool true),
        ("logosSVG", .arr [.str "bsvg", .str "asvg"])]) "logosSVG" =
      .ok (.arr [.str "bsvg", .str "asvg"]) :=
  logosSVG_store_order chartLogosAB [logoRowB, logoRowA]
    [("logos", .arr [.str "A", .str "B"])] (.arr [.str "A", .str "B"])
    [.str "A", .str "B"]
    (.obj [("logos", .arr [.str "A", .str "B"]), ("id", .num 6),
      ("title", .str "nm"), ("chart-type", .null),
      ("internalNotes", .str "i"), ("slug", .str "sl"),
      ("data-entry-url", .str "o"), ("published", .bool true),
      ("logosSVG", .arr [.str "bsvg", .str "asvg"])])
    (by rfl) (by rfl) (by rfl) (by rfl)

/-- C10 helper: a dimension record that *has* a `variableId` key whose value
`int(...)` rejects makes the comprehension fail. -/
theorem collectVarIds_error_of_bad (d val : JValue) (e0 : PyErr)
    (hkey : pyContains "variableId" d = .ok true)
    (hval : pyGetItem d "variableId" = .ok val)
    (hbad : pyInt val = .error e0) :
    ∀ dims : List JValue, d ∈ dims → ∃ e, collectVarIds dims = .error e := by
  intro dims
  induction dims with
  | nil => intro h; cases h
  | cons a ds ih =>
    intro hmem
    rcases List.mem_cons.mp hmem with heq | htail
    · subst heq
      refine ⟨e0, ?_⟩
      unfold collectVarIds
      simp only [hkey, hval, hbad]
    · cases hca : pyContains "variableId" a with
      | error e =>
        refine ⟨e, ?_⟩
        unfold collectVarIds
        simp only [hca]
      | ok b =>
        cases b with
        | false =>
          obtain ⟨e, he⟩ := ih htail
          refine ⟨e, ?_⟩
          unfold collectVarIds
          simp only [hca, he]
        | true =>
          cases hga : pyGetItem a "variableId" with
          | error e =>
            refine ⟨e, ?_⟩
            unfold collectVarIds
            simp only [hca, hga]
          | ok v2 =>
            cases hia : pyInt v2 with
            | error e =>
              refine ⟨e, ?_⟩
              unfold collectVarIds
              simp only [hca, hga, hia]
            | ok n =>
              obtain ⟨e, he⟩ := ih htail
              refine ⟨e, ?_⟩
              unfold collectVarIds
              simp only [hca, hga, hia, he]

/-- C10: `make_cache_tag` applies `int(...)` to every present `variableId`,
so a dimension holding a non-convertible value makes the whole operation fail
instead of being skipped. -/
theorem make_cache_tag_varid_not_coercible
    (chart : Chart) (variableStore : List Variable) (commit : String)
    (cfg dimsVal d val : JValue) (dims : List JValue) (e0 : PyErr)
    (hjson : json_loads chart.config = .ok cfg)
    (hdims : pyGetItem cfg "chart-dimensions" = .ok dimsVal)
    (hiter : pyIter dimsVal = .ok dims)
    (hmem : d ∈ dims)
    (hkey : pyContains "variableId" d = .ok true)
    (hval : pyGetItem d "variableId" = .ok val)
    (hbad : pyInt val = .error e0) :
    ∃ e, make_cache_tag chart variableStore commit = .error e := by
  obtain ⟨e, he⟩ := collectVarIds_error_of_bad d val e0 hkey hval hbad dims hmem
  refine ⟨e, ?_⟩
  unfold make_cache_tag
  rw [hjson, ok_bind, hdims, ok_bind, hiter, ok_bind, he, error_bind]

/-- C10 witness fixture: a dimension whose `variableId` is the string "abc". -/
def chartBadVarId : Chart :=
  { pk := 8, name := "n",
    config := "\x7b\"chart-dimensions\": [\x7b\"variableId\": \"abc\"\x7d]\x7d",
    updated_at := "U", origin_url := "", notes := "", slug := none,
    published := true, type := none }

theorem make_cache_tag_varid_not_coercible_witness :
    ∃ e, make_cache_tag chartBadVarId [] "commit" = .error e :=
  make_cache_tag_varid_not_coercible chartBadVarId [] "commit"
    (.obj [("chart-dimensions", .arr [.obj [("variableId", .str "abc")]])])
    (.arr [.obj [("variableId", .str "abc")]])
    (.obj [("variableId", .str "abc")]) (.str "abc")
    [.obj [("variableId", .str "abc")]] .valueError
    (by rfl) (by rfl) (by rfl) (List.mem_singleton.mpr rfl)
    (by rfl) (by rfl) (by rfl)

end Grapher
